import Mathlib

/-!
Shallow embedding of `src/components/main/sections/Card/TokenCard.tsx`
(mytonwallet): the view-model derivation of a token card — displayed price,
change indicator, staleness/loading flag and date label — together with the
period/currency/selection events that act on its state.

Conventions of the embedding:
* JavaScript numbers that carry prices are modelled as `ℚ`; timestamps and
  durations as `Int` (milliseconds, except series points which carry unix
  seconds as in the source).
* `undefined` is `Option.none`; the `??` operator is an `Option` match.
* JavaScript truthiness of a number (`!x`, `x ? _ : _`, `x && y`) is the
  test `x ≠ 0`; truthiness of a possibly-`undefined` number is
  "present and non-zero". These tests are kept exactly where the source
  has them.
-/

/-- One point of a price series: `[unixSeconds, price]` in the source. -/
structure PricePoint where
  ts : Int
  price : ℚ
deriving Repr, DecidableEq

/-- An ordered price series, as stored in `global.tokenPriceHistory`. -/
abbrev PriceSeries := List PricePoint

/-- Modelled from the spec: `HISTORY_PERIODS` lives in `config`, which is not
among the sources; the spec describes a small enumerated set of fixed
windows (for example 1D, 1W, 1M, ALL). -/
inductive TokenPeriod where
  | D1
  | W1
  | M1
  | ALL
deriving Repr, DecidableEq

/-- The fields of `UserToken` that the card's derivation reads. -/
structure UserToken where
  slug : String
  symbol : String
  price : ℚ
  decimals : Nat
deriving Repr, DecidableEq

/-- The inputs of one render of `TokenCard`: the token, the current period
and base currency from global state, the per-period history store slice for
this token (`historyPeriods`, possibly absent), and the component-local
`selectedHistoryIndex` (`useState(-1)`). -/
structure TokenCardState where
  token : UserToken
  period : TokenPeriod
  baseCurrency : Option String
  historyPeriods : Option (TokenPeriod → Option PriceSeries)
  selectedHistoryIndex : Int

/-- Source: `OFFLINE_TIMEOUT = 120000` (2 minutes, milliseconds). -/
def OFFLINE_TIMEOUT : Int := 120000

/-- Modelled from the spec: `DEFAULT_PRICE_CURRENCY` lives in `config`, which
is not among the sources; it is the asset-native default display currency. -/
def DEFAULT_PRICE_CURRENCY : String := "USD"

/-- Source: `const history = historyPeriods?.[period]`. -/
def history (s : TokenCardState) : Option PriceSeries :=
  s.historyPeriods.bind fun m => m s.period

/-- Source: `shouldUseDefaultCurrency = baseCurrency === undefined || baseCurrency === token.symbol`. -/
def shouldUseDefaultCurrency (s : TokenCardState) : Bool :=
  s.baseCurrency.isNone || s.baseCurrency == some s.token.symbol

/-- Source: `tokenLastUpdatedAt = history?.length ? history[history.length - 1][0] * 1000 : undefined`. -/
def tokenLastUpdatedAt (s : TokenCardState) : Option Int :=
  (history s).bind fun h => (List.getLast? h).map fun p => p.ts * 1000

/-- Source: `tokenLastHistoryPrice = history?.length ? history[history.length - 1][1] : lastPrice`. -/
def tokenLastHistoryPrice (s : TokenCardState) : ℚ :=
  match (history s).bind List.getLast? with
  | some p => p.price
  | none => s.token.price

/-- Source: `selectedHistoryPoint = history?.[selectedHistoryIndex]`: a JavaScript
array index that is negative or past the end yields `undefined`. -/
def selectedHistoryPoint (s : TokenCardState) : Option PricePoint :=
  (history s).bind fun h =>
    if s.selectedHistoryIndex < 0 then none
    else List.get? h s.selectedHistoryIndex.toNat

/-- Source: `price = selectedHistoryPoint?.[1] ?? (shouldUseDefaultCurrency ? tokenLastHistoryPrice : undefined) ?? lastPrice`. -/
def price (s : TokenCardState) : ℚ :=
  match selectedHistoryPoint s with
  | some p => p.price
  | none =>
    if shouldUseDefaultCurrency s then tokenLastHistoryPrice s
    else s.token.price

/-- Source: `isLoading = !tokenLastUpdatedAt || (Date.now() - tokenLastUpdatedAt > OFFLINE_TIMEOUT)`.
A present timestamp of `0` is falsy in JavaScript, so it takes the first
disjunct. -/
def isLoading (s : TokenCardState) (now : Int) : Bool :=
  match tokenLastUpdatedAt s with
  | none => true
  | some t => t == 0 || decide (now - t > OFFLINE_TIMEOUT)

/-- The date label shown under the price, with the formatting calls
abstracted to which branch of the source expression was taken and which
timestamp (milliseconds) it formats:
`pointDate` is `formatShortDay(lang.code, selectedHistoryPoint[0] * 1000, true, true)`,
`tailDate` is `formatShortDay(lang.code, tokenLastUpdatedAt, true, false)`,
`nowLabel` is `lang('Now')`. -/
inductive DateLabel where
  | pointDate (tsMs : Int)
  | tailDate (tsMs : Int)
  | nowLabel
deriving Repr, DecidableEq

/-- Source: `dateStr = selectedHistoryPoint ? formatShortDay(..., selectedHistoryPoint[0] * 1000, true, true)
: (isLoading && tokenLastUpdatedAt ? formatShortDay(..., tokenLastUpdatedAt, true, false) : lang('Now'))`. -/
def dateStr (s : TokenCardState) (now : Int) : DateLabel :=
  match selectedHistoryPoint s with
  | some p => .pointDate (p.ts * 1000)
  | none =>
    match tokenLastUpdatedAt s with
    | some t => if isLoading s now && (t != 0) then .tailDate t else .nowLabel
    | none => .nowLabel

/-- Source: `initialPrice = history?.find(([, value]) => Boolean(value))?.[1]`. -/
def initialPrice (s : TokenCardState) : Option ℚ :=
  (history s).bind fun h => (List.find? (fun p => p.price != 0) h).map fun p => p.price

/-- Source: `change = (initialPrice && lastPrice) ? lastPrice - initialPrice : 0`. -/
def change (s : TokenCardState) : ℚ :=
  match initialPrice s with
  | some ip => if ip != 0 && s.token.price != 0 then s.token.price - ip else 0
  | none => 0

/-- Modelled from the spec: `round(value, precision)` from `util/round` is not
among the sources; the spec describes it as rounding to the given number of
decimal places, so half-way values round up as JavaScript `Math.round` does. -/
def roundUtil (value : ℚ) (precision : Nat) : ℚ :=
  ((⌊value * 10 ^ precision + 1 / 2⌋ : ℤ) : ℚ) / 10 ^ precision

/-- Source: `changeValue = change ? Math.abs(round(change, 4)) : 0`. -/
def changeValue (s : TokenCardState) : ℚ :=
  if change s = 0 then 0 else |roundUtil (change s) 4|

/-- Source: `changePercent = change ? Math.abs(round((change / initialPrice!) * 100, 2)) : 0`.
The non-null assertion on `initialPrice` is sound because `change ≠ 0`
forces `initialPrice` to be present; the `none` branch below is unreachable. -/
def changePercent (s : TokenCardState) : ℚ :=
  if change s = 0 then 0
  else
    match initialPrice s with
    | some ip => |roundUtil (change s / ip * 100) 2|
    | none => 0

/-- The render guard `Boolean(changeValue) && (<div className={styles.tokenChange}>...)`:
the change indicator is shown iff `changeValue` is truthy. -/
def showsChangeIndicator (s : TokenCardState) : Bool :=
  changeValue s != 0

/-- Source: `setSelectedHistoryIndex(i)`: the only write to `selectedHistoryIndex`
in the source, wired to the chart's `onSelectIndex`. -/
def selectIndex (s : TokenCardState) (i : Int) : TokenCardState :=
  { s with selectedHistoryIndex := i }

/-- Last-write-wins store update for one period's series, as the history
store keyed by `bySlug[slug][period]` receives a fetched series. -/
def storePut (m : Option (TokenPeriod → Option PriceSeries)) (p : TokenPeriod)
    (series : PriceSeries) : Option (TokenPeriod → Option PriceSeries) :=
  some fun q => if q = p then some series else match m with
    | some f => f q
    | none => none

/-- Modelled from the spec: the `loadPriceHistory` action dispatched by
`refreshHistory` is not among the sources; per the spec it makes the new
period current and delivers a fetched series into the store. In the
component source `refreshHistory` only dispatches that action — it does not
write `selectedHistoryIndex`. -/
def switchPeriod (s : TokenCardState) (p : TokenPeriod) (fetched : PriceSeries) :
    TokenCardState :=
  { s with period := p, historyPeriods := storePut s.historyPeriods p fetched }

/-- Modelled from the spec: the `loadPriceHistory` action dispatched by
`handleCurrencyChange` is not among the sources; per the spec it makes the
new currency current and delivers a fetched series for the current period.
In the component source `handleCurrencyChange` only dispatches that
action — it does not write `selectedHistoryIndex`. -/
def switchCurrency (s : TokenCardState) (c : String) (fetched : PriceSeries) :
    TokenCardState :=
  { s with baseCurrency := some c,
           historyPeriods := storePut s.historyPeriods s.period fetched }

/-- Spec-side definition of the displayed-price priority chain, following
the spec's words: the selected point's price when a selection resolves;
otherwise the series tail price when the series is non-empty and the display
currency is the asset-native default; otherwise the asset's live price. -/
def priceSpec (s : TokenCardState) : ℚ :=
  match selectedHistoryPoint s with
  | some p => p.price
  | none =>
    if shouldUseDefaultCurrency s then
      match (history s).bind List.getLast? with
      | some tp => tp.price
      | none => s.token.price
    else s.token.price

/-- A selection index is a valid position of the active series. -/
def validIndex (s : TokenCardState) (i : Int) : Prop :=
  ∃ h, history s = some h ∧ 0 ≤ i ∧ i < (h : List PricePoint).length

/-- A token with live price 12, as in the spec's numeric scenario. -/
def exToken : UserToken :=
  { slug := "toncoin", symbol := "TON", price := 12, decimals := 9 }

/-- A store slice that holds a series for the 1D period only. -/
def onlyD1 (h : PriceSeries) : TokenPeriod → Option PriceSeries :=
  fun q => if q = TokenPeriod.D1 then some h else none

/-- A three-point series used to exercise selection. -/
def exSeries3 : PriceSeries := [⟨1, 10⟩, ⟨2, 11⟩, ⟨3, 12⟩]

/-- A distinct three-point series delivered by a period switch. -/
def exNewSeries : PriceSeries := [⟨4, 20⟩, ⟨5, 21⟩, ⟨6, 22⟩]

/-- A state scrubbed to index 1 of the active 1D series. -/
def exSelectedState : TokenCardState :=
  { token := exToken, period := TokenPeriod.D1, baseCurrency := none,
    historyPeriods := some (onlyD1 exSeries3), selectedHistoryIndex := 1 }

/-- A state whose active series has been fetched and came back empty. -/
def exEmptyFetchedState : TokenCardState :=
  { token := exToken, period := TokenPeriod.D1, baseCurrency := none,
    historyPeriods := some (onlyD1 []), selectedHistoryIndex := -1 }

/-- A state whose active series has a single point at unix second 0, so the
tail timestamp is present but equal to 0. -/
def exEpochTailState : TokenCardState :=
  { token := exToken, period := TokenPeriod.D1, baseCurrency := none,
    historyPeriods := some (onlyD1 [⟨0, 5⟩]), selectedHistoryIndex := -1 }

/-- The spec's numeric scenario: series `[(t0,10),(t1,0),(t2,12)]` with live
price 12 and no selection. -/
def exScenarioState : TokenCardState :=
  { token := exToken, period := TokenPeriod.D1, baseCurrency := none,
    historyPeriods := some (onlyD1 [⟨1, 10⟩, ⟨2, 0⟩, ⟨3, 12⟩]),
    selectedHistoryIndex := -1 }

/-- A state with a stale two-point series and a selection at index 0. -/
def exStaleSelectedState : TokenCardState :=
  { token := exToken, period := TokenPeriod.D1, baseCurrency := none,
    historyPeriods := some (onlyD1 [⟨1, 10⟩, ⟨2, 11⟩]), selectedHistoryIndex := 0 }

/-- A state whose token's live price is 0 while the series starts at a
non-zero price. -/
def exZeroLiveState : TokenCardState :=
  { token := { exToken with price := 0 }, period := TokenPeriod.D1,
    baseCurrency := none, historyPeriods := some (onlyD1 [⟨1, 10⟩]),
    selectedHistoryIndex := -1 }


lemma isLoading_iff (s : TokenCardState) (now : Int) :
    isLoading s now = true ↔
      tokenLastUpdatedAt s = none ∨
        ∃ t, tokenLastUpdatedAt s = some t ∧ (t = 0 ∨ now - t > OFFLINE_TIMEOUT) := by
  unfold isLoading
  cases h : tokenLastUpdatedAt s with
  | none => simp
  | some t => simp

lemma tokenLastUpdatedAt_eq_none_iff (s : TokenCardState) :
    tokenLastUpdatedAt s = none ↔ history s = none ∨ history s = some [] := by
  unfold tokenLastUpdatedAt
  cases h : history s with
  | none => simp
  | some l =>
    cases l with
    | nil => simp
    | cons a as => simp [List.getLast?_eq_none_iff]

lemma change_eq_zero_of_initialPrice_none (s : TokenCardState)
    (h : initialPrice s = none) : change s = 0 := by
  unfold change
  rw [h]

lemma initialPrice_of_change_ne_zero (s : TokenCardState) (h : change s ≠ 0) :
    ∃ ip, initialPrice s = some ip ∧ ip ≠ 0 := by
  unfold change at h
  cases hip : initialPrice s with
  | none => rw [hip] at h; exact absurd rfl h
  | some ip =>
    rw [hip] at h
    refine ⟨ip, rfl, ?_⟩
    intro h0
    apply h
    simp [h0]

lemma shouldUseDefaultCurrency_selectIndex (s : TokenCardState) (i : Int) :
    shouldUseDefaultCurrency (selectIndex s i) = shouldUseDefaultCurrency s := rfl

lemma tokenLastHistoryPrice_selectIndex (s : TokenCardState) (i : Int) :
    tokenLastHistoryPrice (selectIndex s i) = tokenLastHistoryPrice s := rfl

lemma token_selectIndex (s : TokenCardState) (i : Int) :
    (selectIndex s i).token = s.token := rfl

lemma tokenLastUpdatedAt_selectIndex (s : TokenCardState) (i : Int) :
    tokenLastUpdatedAt (selectIndex s i) = tokenLastUpdatedAt s := rfl

lemma isLoading_selectIndex (s : TokenCardState) (i : Int) (now : Int) :
    isLoading (selectIndex s i) now = isLoading s now := rfl

lemma selectedHistoryPoint_eq_none_of_invalid (s : TokenCardState) (i : Int)
    (hi : ¬ validIndex s i) : selectedHistoryPoint (selectIndex s i) = none := by
  unfold selectedHistoryPoint
  rw [show history (selectIndex s i) = history s from rfl]
  cases hl : history s with
  | none => rfl
  | some l =>
    show (if i < 0 then (none : Option PricePoint) else List.get? l i.toNat) = none
    by_cases hneg : i < 0
    · rw [if_pos hneg]
    · rw [if_neg hneg]
      have hle : l.length ≤ i.toNat := by
        by_contra hlt
        push_neg at hlt
        exact hi ⟨l, hl, by omega, by omega⟩
      exact List.get?_eq_none.mpr hle

lemma selectedHistoryPoint_sentinel (s : TokenCardState) :
    selectedHistoryPoint (selectIndex s (-1)) = none := by
  unfold selectedHistoryPoint
  rw [show history (selectIndex s (-1)) = history s from rfl]
  cases hl : history s with
  | none => rfl
  | some l =>
    show (if (-1 : Int) < 0 then (none : Option PricePoint) else List.get? l (-1 : Int).toNat) = none
    norm_num

/-- Claim C1 fails on the code: starting from a state scrubbed to index 1,
switching the period to ALL (with a fresh three-point series delivered)
leaves `selectedHistoryIndex` at 1 — not the sentinel −1 — and the stale
index now resolves to a point of the new series; a currency switch keeps
the index as well. -/
theorem c1_switch_keeps_selection_cex :
    (switchPeriod exSelectedState TokenPeriod.ALL exNewSeries).selectedHistoryIndex = 1 ∧
      (switchPeriod exSelectedState TokenPeriod.ALL exNewSeries).selectedHistoryIndex ≠ -1 ∧
      selectedHistoryPoint (switchPeriod exSelectedState TokenPeriod.ALL exNewSeries) =
        some ⟨5, 21⟩ ∧
      (switchCurrency exSelectedState DEFAULT_PRICE_CURRENCY exNewSeries).selectedHistoryIndex ≠ -1 :=
  ⟨by decide, by decide, by decide, by decide⟩

/-- Claim C1, amended: `refreshHistory` (period switch) and
`handleCurrencyChange` (currency switch) only dispatch a fetch; neither
writes `selectedHistoryIndex`, so the selection index is left unchanged —
no reset to the sentinel −1 occurs. -/
theorem c1_switch_preserves_selection (s : TokenCardState) (p : TokenPeriod)
    (c : String) (fetched fetchedC : PriceSeries) :
    (switchPeriod s p fetched).selectedHistoryIndex = s.selectedHistoryIndex ∧
      (switchCurrency s c fetchedC).selectedHistoryIndex = s.selectedHistoryIndex :=
  ⟨rfl, rfl⟩

/-- Claim C2 fails on the code: a fetched-but-empty active series
(`history = some []`) still makes `isLoading` true, because
`tokenLastUpdatedAt` is `undefined` whenever `history?.length` is falsy. -/
theorem c2_loading_iff_absent_cex :
    history exEmptyFetchedState = some [] ∧ isLoading exEmptyFetchedState 1000 = true :=
  ⟨by decide, by decide⟩

/-- Claim C2, amended: `isLoading` is true iff the active series is absent
or empty, or its tail timestamp (milliseconds) is zero or older than the
2-minute `OFFLINE_TIMEOUT` relative to `now`. -/
theorem c2_loading_characterisation (s : TokenCardState) (now : Int) :
    isLoading s now = true ↔
      history s = none ∨ history s = some [] ∨
        ∃ t, tokenLastUpdatedAt s = some t ∧ (t = 0 ∨ now - t > OFFLINE_TIMEOUT) := by
  rw [isLoading_iff, tokenLastUpdatedAt_eq_none_iff]
  exact or_assoc

/-- Claim C3 fails on the code at a degenerate input: with a single series
point at unix second 0, the tail timestamp is present and `now − tail`
does not exceed the timeout at `now = 0`, yet the staleness flag is true,
because a timestamp of 0 is falsy in `!tokenLastUpdatedAt`. -/
theorem c3_stale_iff_cex :
    tokenLastUpdatedAt exEpochTailState = some 0 ∧
      ¬ ((0 : Int) - 0 > OFFLINE_TIMEOUT) ∧
      isLoading exEpochTailState 0 = true :=
  ⟨by decide, by decide, by decide⟩

/-- Spec-side staleness predicate of §4.2 — `lastUpdateTimestamp` absent or
`now - lastUpdateTimestamp > timeoutDuration` — amended with the
zero-timestamp disjunct that the counterexample forces. -/
def isStaleSpec (lastUpdateTimestamp : Option Int) (now timeoutDuration : Int) : Prop :=
  lastUpdateTimestamp = none ∨
    ∃ t, lastUpdateTimestamp = some t ∧ (t = 0 ∨ now - t > timeoutDuration)

/-- Claim C3, amended: for every state and wall-clock time, the staleness
flag equals the pure predicate "tail timestamp absent, or zero, or
`now − tail` exceeds the fixed 2-minute timeout". -/
theorem c3_stale_characterisation (s : TokenCardState) (now : Int) :
    isLoading s now = true ↔ isStaleSpec (tokenLastUpdatedAt s) now OFFLINE_TIMEOUT := by
  unfold isStaleSpec
  exact isLoading_iff s now

/-- Claim C4: the displayed price follows the spec's exact priority chain —
the selected point's price when the selection resolves; otherwise the series
tail price when the series is non-empty and the display currency is the
asset-native default; otherwise the token's live price field. -/
theorem c4_price_priority (s : TokenCardState) : price s = priceSpec s := by
  unfold price priceSpec tokenLastHistoryPrice
  cases selectedHistoryPoint s <;> rfl

/-- Claim C5: for a fixed token, store and currency, `change`, `changeValue`
and `changePercent` are identical across any two selection indices — the
change indicator never depends on the scrubbed point. -/
theorem c5_change_selection_independent (s : TokenCardState) (i j : Int) :
    change (selectIndex s i) = change (selectIndex s j) ∧
      changeValue (selectIndex s i) = changeValue (selectIndex s j) ∧
      changePercent (selectIndex s i) = changePercent (selectIndex s j) :=
  ⟨rfl, rfl, rfl⟩

/-- Claim C6: `changeValue` and `changePercent` are non-negative, both are
zero whenever `initialPrice` is absent or `change` is zero, and whenever
`change` is non-zero the divisor `initialPrice` is present and non-zero, so
the percent computation never divides by zero (no NaN). -/
theorem c6_change_metrics_sane (s : TokenCardState) :
    0 ≤ changeValue s ∧ 0 ≤ changePercent s ∧
      ((initialPrice s = none ∨ change s = 0) →
        changeValue s = 0 ∧ changePercent s = 0) ∧
      (change s ≠ 0 → ∃ ip, initialPrice s = some ip ∧ ip ≠ 0) := by
  refine ⟨?_, ?_, ?_, initialPrice_of_change_ne_zero s⟩
  · unfold changeValue
    split
    · exact le_refl 0
    · exact abs_nonneg _
  · unfold changePercent
    split
    · exact le_refl 0
    · cases hip : initialPrice s with
      | none => exact le_refl 0
      | some ip => exact abs_nonneg _
  · intro hor
    have hch : change s = 0 := hor.elim (change_eq_zero_of_initialPrice_none s) id
    constructor
    · unfold changeValue
      rw [if_pos hch]
    · unfold changePercent
      rw [if_pos hch]

/-- Witness for claim C6 at a concrete state whose series was fetched empty:
`initialPrice` is absent there, so both change metrics evaluate to zero. -/
theorem c6_change_metrics_sane_witness :
    changeValue exEmptyFetchedState = 0 ∧ changePercent exEmptyFetchedState = 0 :=
  (c6_change_metrics_sane exEmptyFetchedState).2.2.1 (Or.inl rfl)

/-- Claim C7: on the series `[(1,10),(2,0),(3,12)]` with live price 12, the
derivation yields `initialPrice = 10` (the first non-zero point, skipping
the zero), `change = 2`, `changePercent = 20` (two decimal places) and
`changeValue = 2` (four decimal places). -/
theorem c7_scenario :
    initialPrice exScenarioState = some 10 ∧ change exScenarioState = 2 ∧
      changePercent exScenarioState = 20 ∧ changeValue exScenarioState = 2 := by
  have hip : initialPrice exScenarioState = some 10 := by decide
  have hch : change exScenarioState = 2 := by
    unfold change
    rw [hip]
    show (if ((10 : ℚ) != 0 && (12 : ℚ) != 0) then (12 : ℚ) - 10 else 0) = 2
    norm_num
  have hcp : changePercent exScenarioState = 20 := by
    unfold changePercent
    rw [hch, hip]
    rw [if_neg (by norm_num : ¬ (2 : ℚ) = 0)]
    show |roundUtil ((2 : ℚ) / 10 * 100) 2| = 20
    unfold roundUtil
    have hf : ⌊((2 : ℚ) / 10 * 100 * 10 ^ 2 + 1 / 2)⌋ = 2000 := by
      rw [Int.floor_eq_iff]
      norm_num
    rw [hf]
    norm_num
  have hcv : changeValue exScenarioState = 2 := by
    unfold changeValue
    rw [hch]
    rw [if_neg (by norm_num : ¬ (2 : ℚ) = 0)]
    unfold roundUtil
    have hf : ⌊((2 : ℚ) * 10 ^ 4 + 1 / 2)⌋ = 20000 := by
      rw [Int.floor_eq_iff]
      norm_num
    rw [hf]
    norm_num
  exact ⟨hip, hch, hcp, hcv⟩

/-- Claim C8: whenever the selection index resolves to a point of the active
series, the date label is that point's timestamp formatted, for every
wall-clock time — the staleness-driven branches apply only without a
resolving selection. -/
theorem c8_selection_drives_date (s : TokenCardState) (now : Int) (p : PricePoint)
    (hp : selectedHistoryPoint s = some p) :
    dateStr s now = DateLabel.pointDate (p.ts * 1000) := by
  unfold dateStr
  rw [hp]

/-- Witness for claim C8 at a concrete scrubbed state whose series is stale
at the chosen clock: the selection still drives the date label. -/
theorem c8_selection_drives_date_witness :
    selectedHistoryPoint exStaleSelectedState = some ⟨1, 10⟩ ∧
      isLoading exStaleSelectedState 1000000000 = true ∧
      dateStr exStaleSelectedState 1000000000 = DateLabel.pointDate 1000 :=
  ⟨by decide, by decide,
    c8_selection_drives_date exStaleSelectedState 1000000000 ⟨1, 10⟩ (by decide)⟩

/-- Claim C9: a selection index that is not a valid position of the active
series leaves the observable view unchanged — the displayed price and date
label coincide with those of the sentinel (no-selection) state. -/
theorem c9_invalid_selection_noop (s : TokenCardState) (i : Int)
    (hi : ¬ validIndex s i) (now : Int) :
    price (selectIndex s i) = price (selectIndex s (-1)) ∧
      dateStr (selectIndex s i) now = dateStr (selectIndex s (-1)) now := by
  have h1 : selectedHistoryPoint (selectIndex s i) = none :=
    selectedHistoryPoint_eq_none_of_invalid s i hi
  have h2 : selectedHistoryPoint (selectIndex s (-1)) = none :=
    selectedHistoryPoint_sentinel s
  constructor
  · unfold price
    rw [h1, h2]
    simp only [shouldUseDefaultCurrency_selectIndex, tokenLastHistoryPrice_selectIndex,
      token_selectIndex]
  · unfold dateStr
    rw [h1, h2]
    simp only [tokenLastUpdatedAt_selectIndex, isLoading_selectIndex]

/-- Witness for claim C9: index 5 is out of range for the three-point active
series, and the derived price and date label match the sentinel state. -/
theorem c9_invalid_selection_noop_witness :
    ¬ validIndex exSelectedState 5 ∧
      price (selectIndex exSelectedState 5) = price (selectIndex exSelectedState (-1)) ∧
      dateStr (selectIndex exSelectedState 5) 0 = dateStr (selectIndex exSelectedState (-1)) 0 := by
  have hnv : ¬ validIndex exSelectedState 5 := by
    rintro ⟨l, hl, -, hlt⟩
    rw [show history exSelectedState = some exSeries3 from rfl] at hl
    cases hl
    have hlen : (exSeries3.length : Int) = 3 := by simp [exSeries3]
    omega
  exact ⟨hnv, (c9_invalid_selection_noop exSelectedState 5 hnv 0).1,
    (c9_invalid_selection_noop exSelectedState 5 hnv 0).2⟩

/-- Claim C10 (implicit): a zero live price zeroes the whole change
indicator — `change`, `changeValue` and `changePercent` are all zero and the
indicator is not rendered — even when the series has a non-zero
`initialPrice`, because `initialPrice && lastPrice` is falsy. -/
theorem c10_zero_live_price_zeroes_change (s : TokenCardState)
    (h : s.token.price = 0) :
    change s = 0 ∧ changeValue s = 0 ∧ changePercent s = 0 ∧
      showsChangeIndicator s = false := by
  have hch : change s = 0 := by
    unfold change
    cases hip : initialPrice s with
    | none => rfl
    | some ip => simp [h]
  have hcv : changeValue s = 0 := by
    unfold changeValue
    rw [if_pos hch]
  have hcp : changePercent s = 0 := by
    unfold changePercent
    rw [if_pos hch]
  refine ⟨hch, hcv, hcp, ?_⟩
  unfold showsChangeIndicator
  rw [hcv]
  simp

/-- Witness for claim C10 at a concrete state whose series starts at price
10 while the live price is 0. -/
theorem c10_zero_live_price_zeroes_change_witness :
    initialPrice exZeroLiveState = some 10 ∧ change exZeroLiveState = 0 ∧
      changeValue exZeroLiveState = 0 ∧ changePercent exZeroLiveState = 0 ∧
      showsChangeIndicator exZeroLiveState = false := by
  have h := c10_zero_live_price_zeroes_change exZeroLiveState rfl
  exact ⟨by decide, h.1, h.2.1, h.2.2.1, h.2.2.2⟩
